import Mathlib

/-!
Verification of the VibeVST repository: a CLI that scaffolds JUCE VST
plugin projects (`scripts/vibevst.py`) and a script that patches the
juceaide CMakeLists file (`scripts/patch_juceaide_cmakelists.py`).

Python strings are modelled as `List Char` (a sequence of code points);
Python's `str.upper` (a per-code-point Unicode uppercase mapping whose
full case mappings can expand one character to several, e.g. the sharp s
uppercases to `SS`), `str.ljust`, `str.isalnum`, slicing and `in` /
`replace(old, new, 1)` are modelled by the corresponding total functions
below.  Effectful commands (`build`, `vibe`, `init`) are modelled as pure
functions from an explicit world/environment to a record of the side
effects they perform (file writes, subprocess invocations) and the exit
code they produce.
-/

set_option maxRecDepth 20000

namespace VibeVST

/-- The image of one character under Python `str.upper()`.  Python applies
the Unicode uppercase mapping code point by code point; on the ASCII range
it coincides with `Char.toUpper`, and the full case mapping can expand a
character into several, which the model carries through the representative
expansion `'ß' ↦ "SS"` (German sharp s, `str.isalnum`-accepted and
length-changing under `upper`).  Other non-ASCII characters are kept
unchanged; no theorem below depends on their exact images, only on the
structural facts — shared with Python's mapping — that uppercasing acts
per character and never maps a character to the empty string. -/
def pyCharUpper (c : Char) : List Char :=
  if c = 'ß' then ['S', 'S'] else [c.toUpper]

/-- Model of Python `str.upper()`: the per-character images concatenated. -/
def pyUpper : List Char → List Char
  | [] => []
  | c :: rest => pyCharUpper c ++ pyUpper rest

/-- Model of Python `str.ljust(width, fill)`: pad on the right up to `width`. -/
def pyLjust (s : List Char) (width : Nat) (fill : Char) : List Char :=
  s ++ List.replicate (width - s.length) fill

/-- Wrap a string in double quotes, as the f-string `f'"{code}"'` does at
`vibevst.py:414-415`. -/
def pyQuote (s : List Char) : List Char :=
  '"' :: (s ++ ['"'])

/-- The 4-character code derivation of `vibevst.py:414-415`:
`source[:4].upper().ljust(4, "X")`. -/
def deriveCode (s : List Char) : List Char :=
  pyLjust (pyUpper (s.take 4)) 4 'X'

/-- The project-name sanitizer of `vibevst.py:409`:
`"".join(c for c in name if c.isalnum() or c == "_")`. -/
def sanitizeName (s : List Char) : List Char :=
  s.filter (fun c => c.isAlphanum || c == '_')

/-- The class-name derivation of `vibevst.py:410`:
`project_name.replace("_", "")`. -/
def removeUnderscores (s : List Char) : List Char :=
  s.filter (fun c => !(c == '_'))

/-! ### Character-level helper lemmas -/

theorem char_toNat_ofNat {n : Nat} (h : n.isValidChar) :
    (Char.ofNat n).toNat = n := by
  simp [Char.ofNat, h, Char.ofNatAux, Char.toNat, UInt32.toNat, BitVec.toNat_ofNatLt]

theorem toUpper_idem (c : Char) : c.toUpper.toUpper = c.toUpper := by
  unfold Char.toUpper
  by_cases h : c.toNat ≥ 97 ∧ c.toNat ≤ 122
  · have hv : (c.toNat - 32).isValidChar := by
      constructor
      omega
    rw [if_pos h, char_toNat_ofNat hv]
    rw [if_neg]
    omega
  · rw [if_neg h, if_neg h]

theorem toUpper_ascii {c : Char} (h : c.toNat < 128) : c.toUpper.toNat < 128 := by
  unfold Char.toUpper
  by_cases hl : c.toNat ≥ 97 ∧ c.toNat ≤ 122
  · rw [if_pos hl]
    have hv : (c.toNat - 32).isValidChar := by
      constructor
      omega
    rw [char_toNat_ofNat hv]
    omega
  · rw [if_neg hl]
    exact h

theorem pyCharUpper_length_pos (c : Char) : 0 < (pyCharUpper c).length := by
  unfold pyCharUpper
  by_cases h : c = 'ß' <;> simp [h]

/-- Uppercasing never shrinks a string: every character's image under the
case mapping is nonempty. -/
theorem length_le_pyUpper (s : List Char) : s.length ≤ (pyUpper s).length := by
  induction s with
  | nil => simp [pyUpper]
  | cons c rest ih =>
    have hc := pyCharUpper_length_pos c
    show (c :: rest).length ≤ (pyCharUpper c ++ pyUpper rest).length
    rw [List.length_cons, List.length_append]
    omega

/-- On ASCII input the uppercase mapping is exactly `Char.toUpper` applied
per character (no expansion happens). -/
theorem pyUpper_ascii (s : List Char) (h : ∀ c ∈ s, c.toNat < 128) :
    pyUpper s = s.map Char.toUpper := by
  induction s with
  | nil => rfl
  | cons c rest ih =>
    have hc : c ≠ 'ß' := by
      intro hEq
      subst hEq
      exact absurd (h 'ß' (List.mem_cons_self _ _)) (by decide)
    show pyCharUpper c ++ pyUpper rest = List.map Char.toUpper (c :: rest)
    rw [pyCharUpper, if_neg hc, List.map_cons,
      ih (fun a ha => h a (List.mem_cons_of_mem c ha))]
    rfl

/-! ### Shape lemma for the code derivation -/

theorem deriveCode_eq (s : List Char) :
    deriveCode s =
      if 4 ≤ s.length then pyUpper (s.take 4)
      else pyUpper s ++ List.replicate (4 - (pyUpper s).length) 'X' := by
  unfold deriveCode pyLjust
  by_cases h : 4 ≤ s.length
  · rw [if_pos h]
    have h1 : (s.take 4).length = 4 := by
      rw [List.length_take]
      omega
    have h2 : 4 ≤ (pyUpper (s.take 4)).length := by
      have := length_le_pyUpper (s.take 4)
      omega
    have h0 : 4 - (pyUpper (s.take 4)).length = 0 := by omega
    rw [h0, List.replicate_zero, List.append_nil]
  · rw [if_neg h]
    rw [List.take_of_length_le (by omega)]

/-! ### Template variables and the generated CMake build descriptor -/

/-- The substitution dictionary built at `vibevst.py:440-449`. -/
structure TemplateVars where
  project_name : List Char
  class_name : List Char
  display_name : List Char
  company_name : List Char
  is_synth : List Char
  needs_midi : List Char
  manufacturer_code : List Char
  plugin_code : List Char
deriving DecidableEq

/-- The identity fields computed by `init` (`vibevst.py:408-449`) from the
raw name, the `--synth` flag and the company name. -/
def template_vars (name : List Char) (synth : Bool) (company : List Char) :
    TemplateVars :=
  let project_name := sanitizeName name
  { project_name := project_name
    class_name := removeUnderscores project_name
    display_name := name
    company_name := company
    is_synth := if synth then ("TRUE").toList else ("FALSE").toList
    needs_midi := if synth then ("TRUE").toList else ("FALSE").toList
    manufacturer_code := pyQuote (deriveCode company)
    plugin_code := pyQuote (deriveCode project_name) }

/-- `CMAKE_TEMPLATE.format(**template_vars)` (`vibevst.py:38-113`, applied at
line 452): the template text with each `{field}` placeholder replaced by the
corresponding field and `{{`/`}}` rendered as literal braces. -/
def cmakeRender (v : TemplateVars) : List Char :=
  ("cmake_minimum_required(VERSION 3.22)\n\nproject(").toList ++
  v.project_name ++
  (" VERSION 1.0.0)\n\nset(CMAKE_CXX_STANDARD 20)\nset(CMAKE_CXX_STANDARD_REQUIRED ON)\n\n# Find JUCE\nfind_package(JUCE CONFIG REQUIRED)\n\n# Add the plugin target\njuce_add_plugin(").toList ++
  v.project_name ++
  ("\n    COMPANY_NAME \"").toList ++
  v.company_name ++
  ("\"\n").toList ++
  ("    IS_SYNTH ").toList ++
  v.is_synth ++
  ("\n").toList ++
  ("    NEEDS_MIDI_INPUT ").toList ++
  v.needs_midi ++
  ("\n").toList ++
  ("    NEEDS_MIDI_OUTPUT FALSE\n    IS_MIDI_EFFECT FALSE\n    EDITOR_WANTS_KEYBOARD_FOCUS TRUE\n    COPY_PLUGIN_AFTER_BUILD FALSE\n    PLUGIN_MANUFACTURER_CODE ").toList ++
  v.manufacturer_code ++
  ("\n    PLUGIN_CODE ").toList ++
  v.plugin_code ++
  ("\n    FORMATS VST3 Standalone\n    PRODUCT_NAME \"").toList ++
  v.display_name ++
  ("\"\n)\n\n# Generate JUCE header\njuce_generate_juce_header(").toList ++
  v.project_name ++
  (")\n\n# Source files\ntarget_sources(").toList ++
  v.project_name ++
  ("\n    PRIVATE\n        Source/PluginProcessor.cpp\n        Source/PluginEditor.cpp\n)\n\n# Add DSP sources if they exist\nfile(GLOB_RECURSE DSP_SOURCES \"Source/DSP/*.cpp\")\nif(DSP_SOURCES)\n    target_sources(").toList ++
  v.project_name ++
  (" PRIVATE ${DSP_SOURCES})\nendif()\n\n# Add GUI sources if they exist\nfile(GLOB_RECURSE GUI_SOURCES \"Source/GUI/*.cpp\")\nif(GUI_SOURCES)\n    target_sources(").toList ++
  v.project_name ++
  (" PRIVATE ${GUI_SOURCES})\nendif()\n\n# Include directories\ntarget_include_directories(").toList ++
  v.project_name ++
  ("\n    PRIVATE\n        Source\n        Source/DSP\n        Source/GUI\n)\n\n# JUCE compile definitions\ntarget_compile_definitions(").toList ++
  v.project_name ++
  ("\n    PUBLIC\n        JUCE_WEB_BROWSER=0\n        JUCE_USE_CURL=0\n        JUCE_VST3_CAN_REPLACE_VST2=0\n        JUCE_DISPLAY_SPLASH_SCREEN=0\n)\n\n# Link JUCE modules\ntarget_link_libraries(").toList ++
  v.project_name ++
  ("\n    PRIVATE\n        juce::juce_audio_utils\n        juce::juce_dsp\n        juce::juce_opengl\n    PUBLIC\n        juce::juce_recommended_config_flags\n        juce::juce_recommended_lto_flags\n        juce::juce_recommended_warning_flags\n)\n").toList

/-! ### The `init` subcommand (`vibevst.py:399-485`) -/

/-- The filesystem effects of one `init` run: the directories created
(`vibevst.py:428-437`), the text files generated from templates
(lines 451-470, in write order) and the empty retention-marker files
touched (lines 473-474).  Paths are relative to the working directory. -/
structure InitResult where
  vars : TemplateVars
  dirs : List (List Char)
  text_files : List (List Char)
  marker_files : List (List Char)
deriving DecidableEq

/-- Model of the `init` subcommand (`vibevst.py:403-474`). -/
def vibeInit (name : List Char) (synth : Bool) (company : List Char) :
    InitResult :=
  let v := template_vars name synth company
  let p := v.project_name
  { vars := v
    dirs := [p ++ ("/Source").toList,
             p ++ ("/Source/DSP").toList,
             p ++ ("/Source/GUI").toList,
             p ++ ("/Resources").toList]
    text_files := [p ++ ("/CMakeLists.txt").toList,
                   p ++ ("/Source/PluginProcessor.cpp").toList,
                   p ++ ("/Source/PluginProcessor.h").toList,
                   p ++ ("/Source/PluginEditor.cpp").toList,
                   p ++ ("/Source/PluginEditor.h").toList]
    marker_files := [p ++ ("/Source/DSP/.gitkeep").toList,
                     p ++ ("/Source/GUI/.gitkeep").toList] }

/-! ### The juceaide CMakeLists patcher (`patch_juceaide_cmakelists.py`) -/

/-- The `PATCH_BLOCK` text of `patch_juceaide_cmakelists.py:7-16`. -/
def PATCH_BLOCK : List Char :=
  ("if(DEFINED JUCE_TOOL_JUCEAIDE)\n    message(STATUS \"Using provided juceaide: ${JUCE_TOOL_JUCEAIDE}\")\n\n    add_executable(juceaide IMPORTED GLOBAL)\n    set_target_properties(juceaide PROPERTIES IMPORTED_LOCATION \"${JUCE_TOOL_JUCEAIDE}\")\n    add_executable(juce::juceaide ALIAS juceaide)\n\n    get_filename_component(_juce_juceaide_name \"${JUCE_TOOL_JUCEAIDE}\" NAME)\n    set(JUCE_JUCEAIDE_NAME \"${_juce_juceaide_name}\" CACHE INTERNAL \"The name of the juceaide program\")\nelseif(JUCE_BUILD_HELPER_TOOLS)").toList

/-- First already-patched marker checked at `patch_juceaide_cmakelists.py:22`. -/
def markerA : List Char :=
  ("DEFINED JUCE_TOOL_JUCEAIDE").toList

/-- Second already-patched marker checked at `patch_juceaide_cmakelists.py:22`. -/
def markerB : List Char :=
  ("Using provided juceaide:").toList

/-- The anchor line required at `patch_juceaide_cmakelists.py:26`. -/
def anchorLine : List Char :=
  ("if(JUCE_BUILD_HELPER_TOOLS)").toList

/-- Model of Python `pat in s` for strings: substring containment. -/
def containsSubstring (pat : List Char) : List Char → Bool
  | [] => pat.isEmpty
  | c :: rest => pat.isPrefixOf (c :: rest) || containsSubstring pat rest

/-- Model of Python `s.replace(pat, rep, 1)`: replace the first (leftmost)
occurrence of `pat` in `s` by `rep`. -/
def replaceFirst (pat rep : List Char) : List Char → List Char
  | [] => if pat.isEmpty then rep else []
  | c :: rest =>
    if pat.isPrefixOf (c :: rest) then rep ++ (c :: rest).drop pat.length
    else c :: replaceFirst pat rep rest

/-- The three ways `main` of `patch_juceaide_cmakelists.py` can end:
return `0` without writing (already patched), write the new text and
return `0`, or raise `SystemExit` with the marker-not-found message
(a fatal, non-zero termination). -/
inductive PatchOutcome where
  | alreadyPatched : PatchOutcome
  | patched : List Char → PatchOutcome
  | markerNotFound : PatchOutcome
deriving DecidableEq

/-- Model of `main` (`patch_juceaide_cmakelists.py:19-33`) as a function of
the file's text. -/
def patchMain (text : List Char) : PatchOutcome :=
  if containsSubstring markerA text || containsSubstring markerB text then
    PatchOutcome.alreadyPatched
  else if containsSubstring anchorLine text then
    PatchOutcome.patched (replaceFirst anchorLine PATCH_BLOCK text)
  else
    PatchOutcome.markerNotFound

/-- The file write performed by an outcome: only the `patched` branch
reaches `FILE.write_text` (`patch_juceaide_cmakelists.py:31`). -/
def patchWrites : PatchOutcome → Option (List Char)
  | PatchOutcome.patched t => some t
  | PatchOutcome.alreadyPatched => none
  | PatchOutcome.markerNotFound => none

/-! ### The `build` subcommand (`vibevst.py:488-541`) -/

/-- One observable side effect of `build`: a directory-tree removal
(`shutil.rmtree`) or a subprocess invocation (`subprocess.run`). -/
inductive BuildEffect where
  | removeTree : String → BuildEffect
  | runProcess : List String → BuildEffect
deriving DecidableEq

/-- The environment `build` runs in: whether `CMakeLists.txt` and `build/`
exist in the working directory, and the return codes the two external
cmake invocations would report. -/
structure BuildWorld where
  cmakelists_exists : Bool
  build_dir_exists : Bool
  configure_returncode : Int
  build_returncode : Int

/-- The outcome of one `build` run: the side effects in order, and
`some n` when the command terminates through `sys.exit(n)`. -/
structure BuildRun where
  effects : List BuildEffect
  exit_code : Option Nat
deriving DecidableEq

/-- Model of the `build` subcommand (`vibevst.py:491-541`).  `juce_path` is
the `JUCE_PATH` configuration value read from the environment at line 31. -/
def buildCommand (w : BuildWorld) (config : String) (clean : Bool)
    (juce_path : String) : BuildRun :=
  if w.cmakelists_exists then
    let cleanFx := if clean && w.build_dir_exists
      then [BuildEffect.removeTree "build"] else []
    let configureCmd := ["cmake", "-B", "build", "-G", "Ninja",
      "-DCMAKE_BUILD_TYPE=" ++ config, "-DJUCE_DIR=" ++ juce_path]
    let fx1 := cleanFx ++ [BuildEffect.runProcess configureCmd]
    if w.configure_returncode ≠ 0 then
      { effects := fx1, exit_code := some 1 }
    else
      let buildCmd := ["cmake", "--build", "build", "--config", config, "-j"]
      let fx2 := fx1 ++ [BuildEffect.runProcess buildCmd]
      if w.build_returncode ≠ 0 then
        { effects := fx2, exit_code := some 1 }
      else
        { effects := fx2, exit_code := none }
  else
    { effects := [], exit_code := some 1 }

/-! ### The `vibe` subcommand (`vibevst.py:544-595`) -/

/-- The context string assembled at `vibevst.py:570-581`. -/
def vibeContext (juce_path : String) (prompt_text : String) : String :=
  "You are helping develop a JUCE VST3 plugin. \nThe JUCE framework is located at " ++
  juce_path ++
  ".\nUse JUCE 7 syntax and modern C++20 features.\n\nProject structure:\n- Source/PluginProcessor.cpp - Audio processing callback\n- Source/PluginEditor.cpp - GUI code\n- Source/DSP/ - Put DSP classes here (filters, oscillators, etc.)\n- Source/GUI/ - Put custom GUI components here\n\nUser's request: " ++
  prompt_text ++
  "\n"

/-- The outcome of one `vibe` run: the aider subprocess invocation when one
happened, and `some n` when the command terminates via `sys.exit(n)`. -/
structure VibeRun where
  aider_invocation : Option (List String)
  exit_code : Option Nat
deriving DecidableEq

/-- Model of the `vibe` subcommand (`vibevst.py:547-595`).  `api_key` is
`os.environ.get("ANTHROPIC_API_KEY", "")` with `none` for an unset
variable; `aider_found` says whether launching `aider` raises
`FileNotFoundError` (in which case the command falls back to printing the
context instead of failing). -/
def vibeCommand (promptParts : List String) (model : String)
    (juce_path : String) (api_key : Option String) (aider_found : Bool) :
    VibeRun :=
  let prompt_text := String.intercalate " " promptParts
  let anthropic_key := api_key.getD ""
  if anthropic_key.isEmpty then
    { aider_invocation := none, exit_code := some 1 }
  else
    let context := vibeContext juce_path prompt_text
    let aider_cmd := ["aider", "--model", model, "--message", context, "--no-git"]
    if aider_found then
      { aider_invocation := some aider_cmd, exit_code := none }
    else
      { aider_invocation := none, exit_code := none }

/-! ### Substring lemmas for the patcher -/

theorem containsSubstring_iff (pat s : List Char) :
    containsSubstring pat s = true ↔ pat <:+: s := by
  induction s with
  | nil =>
    simp [containsSubstring, List.isEmpty_iff, List.infix_nil]
  | cons c rest ih =>
    simp [containsSubstring, List.isPrefixOf_iff_prefix, ih, List.infix_cons_iff,
      Bool.or_eq_true]

theorem rep_infix_replaceFirst (pat rep s : List Char) (h : pat <:+: s) :
    rep <:+: replaceFirst pat rep s := by
  induction s with
  | nil =>
    rw [List.infix_nil] at h
    subst h
    simp [replaceFirst, List.infix_refl]
  | cons c rest ih =>
    by_cases hp : pat.isPrefixOf (c :: rest)
    · rw [replaceFirst, if_pos hp]
      exact (List.prefix_append rep _).isInfix
    · rw [replaceFirst, if_neg hp]
      rcases List.infix_cons_iff.mp h with hpre | hinf
      · exact absurd (List.isPrefixOf_iff_prefix.mpr hpre) hp
      · exact List.infix_cons (ih hinf)

theorem markerA_in_patch_block : containsSubstring markerA PATCH_BLOCK = true := by
  decide

/-- A small CMakeLists text containing the anchor line, used to exercise the
patcher end to end. -/
def sampleCMakeText : List Char :=
  ("# juceaide\nif(JUCE_BUILD_HELPER_TOOLS)\n  stuff()\nendif()\n").toList

/-! ### Claims -/

/-- Claim C1: for every source string, the derived code is the uppercased
first 4 characters when the source has length at least 4, and the
uppercased source right-padded with `X` to length 4 when shorter (padding
up to the target width 4, so by `4 - len(upper(s))` characters); in
particular `"Jo"` yields `"JOXX"` and `""` yields `"XXXX"`. -/
theorem claim1_code_derivation (s : List Char) :
    (deriveCode s =
      if 4 ≤ s.length then pyUpper (s.take 4)
      else pyUpper s ++ List.replicate (4 - (pyUpper s).length) 'X') ∧
    deriveCode (("Jo").toList) = ("JOXX").toList ∧
    deriveCode (("").toList) = ("XXXX").toList :=
  ⟨deriveCode_eq s, by decide, by decide⟩

/-- Counterexample to claim C2 as stated: the derived codes are not always
exactly 4 characters long.  For company `"ßßß"` the program computes
`"ßßß".upper().ljust(4, "X") = "SSSSSS"`, a 6-character code, because the
full uppercase mapping expands each sharp s into two characters. -/
theorem claim2_code_invariant_counterexample :
    ¬ ((deriveCode (['ß', 'ß', 'ß'])).length = 4) := by
  decide

/-- Claim C2 (amended: restricted to ASCII source strings, on which the
uppercase mapping cannot expand — the amendment forced by the sharp-s
counterexample): the derived code is exactly 4 characters long, is
case-normalized (uppercasing it changes nothing, so it holds no lowercase
letters), and the positions past the source's length are filled with the
pad character `X`. -/
theorem claim2_code_invariant (s : List Char) (h : ∀ c ∈ s, c.toNat < 128) :
    (deriveCode s).length = 4 ∧
    pyUpper (deriveCode s) = deriveCode s ∧
    (deriveCode s).drop (min 4 s.length) = List.replicate (4 - s.length) 'X' := by
  have htake : ∀ c ∈ s.take 4, c.toNat < 128 :=
    fun c hc => h c ((List.take_sublist 4 s).subset hc)
  have hs : pyUpper (s.take 4) = (s.take 4).map Char.toUpper :=
    pyUpper_ascii _ htake
  have ha : ((s.take 4).map Char.toUpper).length = min 4 s.length := by
    rw [List.length_map, List.length_take]
  have hd : deriveCode s = (s.take 4).map Char.toUpper ++
      List.replicate (4 - min 4 s.length) 'X' := by
    unfold deriveCode pyLjust
    rw [hs, ha]
  refine ⟨?_, ?_, ?_⟩
  · rw [hd, List.length_append, List.length_replicate, ha]
    omega
  · have hall : ∀ c ∈ deriveCode s, c.toNat < 128 := by
      intro c hc
      rw [hd] at hc
      rcases List.mem_append.mp hc with hc | hc
      · rcases List.mem_map.mp hc with ⟨b, hb, rfl⟩
        exact toUpper_ascii (htake b hb)
      · rw [List.eq_of_mem_replicate hc]
        decide
    rw [pyUpper_ascii _ hall, hd, List.map_append, List.map_map, List.map_replicate]
    rw [show Char.toUpper 'X' = 'X' from by decide]
    congr 1
    exact List.map_congr_left (fun b _ => toUpper_idem b)
  · rw [hd]
    by_cases h4 : 4 ≤ s.length
    · have hm : min 4 s.length = 4 := by omega
      have h0 : 4 - s.length = 0 := by omega
      have hlen : ((s.take 4).map Char.toUpper).length ≤ 4 := by
        rw [ha]
        omega
      rw [hm, h0, List.replicate_zero, List.append_nil]
      exact List.drop_of_length_le hlen
    · have hm : min 4 s.length = s.length := by omega
      rw [hm, List.drop_left' (by omega)]

/-- Witness for the amended claim C2 at the concrete ASCII input `"Acme"`. -/
theorem claim2_code_invariant_witness :
    (deriveCode (("Acme").toList)).length = 4 ∧
    pyUpper (deriveCode (("Acme").toList)) = deriveCode (("Acme").toList) ∧
    (deriveCode (("Acme").toList)).drop (min 4 (("Acme").toList).length) =
      List.replicate (4 - (("Acme").toList).length) 'X' :=
  claim2_code_invariant (("Acme").toList) (by decide)

/-- Claim C5: the sanitized project name keeps only alphanumeric characters
and underscores, and is an order-preserving subsequence of the input. -/
theorem claim5_sanitize_subsequence (s : List Char) :
    List.Sublist (sanitizeName s) s ∧
    (sanitizeName s).all (fun c => c.isAlphanum || c == '_') = true := by
  refine ⟨List.filter_sublist s, ?_⟩
  rw [List.all_eq_true]
  intro a ha
  exact (List.mem_filter.mp ha).2

/-- Claim C9: the sanitizer is idempotent, and a string that already
consists only of alphanumerics and underscores is returned unchanged. -/
theorem claim9_sanitize_idempotent (s : List Char) :
    sanitizeName (sanitizeName s) = sanitizeName s ∧
    (s.all (fun c => c.isAlphanum || c == '_') = true → sanitizeName s = s) := by
  constructor
  · unfold sanitizeName
    rw [List.filter_filter]
    exact List.filter_congr (fun a _ => by cases h : (a.isAlphanum || a == '_') <;> simp [h])
  · intro h
    unfold sanitizeName
    rw [List.filter_eq_self]
    exact List.all_eq_true.mp h

/-- Witness for claim C9 at the concrete input `"ab_1"`. -/
theorem claim9_sanitize_idempotent_witness :
    sanitizeName (sanitizeName (("ab_1").toList)) = sanitizeName (("ab_1").toList) ∧
    sanitizeName (("ab_1").toList) = ("ab_1").toList :=
  ⟨(claim9_sanitize_idempotent (("ab_1").toList)).1,
   (claim9_sanitize_idempotent (("ab_1").toList)).2 (by decide)⟩

/-- Claim C3: the patcher is idempotent.  A run that patched the file leaves
a text on which a second run reports already-patched and writes nothing;
and whenever one of the two marker substrings is present, the run reports
already-patched and writes nothing. -/
theorem claim3_patch_idempotent (text t2 : List Char) :
    (patchMain text = PatchOutcome.patched t2 →
      patchMain t2 = PatchOutcome.alreadyPatched ∧
      patchWrites (patchMain t2) = none) ∧
    ((containsSubstring markerA text || containsSubstring markerB text) = true →
      patchMain text = PatchOutcome.alreadyPatched ∧
      patchWrites (patchMain text) = none) := by
  constructor
  · intro h
    unfold patchMain at h
    by_cases h1 : (containsSubstring markerA text || containsSubstring markerB text) = true
    · rw [if_pos h1] at h
      exact PatchOutcome.noConfusion h
    · rw [if_neg h1] at h
      by_cases h2 : containsSubstring anchorLine text = true
      · rw [if_pos h2] at h
        injection h with ht
        subst ht
        have hanchor : anchorLine <:+: text := (containsSubstring_iff _ _).mp h2
        have hpb : PATCH_BLOCK <:+: replaceFirst anchorLine PATCH_BLOCK text :=
          rep_infix_replaceFirst _ _ _ hanchor
        have hma : markerA <:+: replaceFirst anchorLine PATCH_BLOCK text :=
          ((containsSubstring_iff _ _).mp markerA_in_patch_block).trans hpb
        have hcs : containsSubstring markerA (replaceFirst anchorLine PATCH_BLOCK text) = true :=
          (containsSubstring_iff _ _).mpr hma
        have hres : patchMain (replaceFirst anchorLine PATCH_BLOCK text) =
            PatchOutcome.alreadyPatched := by
          unfold patchMain
          rw [if_pos (by simp [hcs])]
        exact ⟨hres, by rw [hres]; rfl⟩
      · rw [if_neg h2] at h
        exact PatchOutcome.noConfusion h
  · intro h1
    have hres : patchMain text = PatchOutcome.alreadyPatched := by
      unfold patchMain
      rw [if_pos h1]
    exact ⟨hres, by rw [hres]; rfl⟩

/-- Witness for claim C3: patching a concrete anchored text once and then
running the patcher again reports already-patched without a write. -/
theorem claim3_patch_idempotent_witness :
    patchMain (replaceFirst anchorLine PATCH_BLOCK sampleCMakeText) =
      PatchOutcome.alreadyPatched ∧
    patchWrites (patchMain (replaceFirst anchorLine PATCH_BLOCK sampleCMakeText)) = none :=
  (claim3_patch_idempotent sampleCMakeText
    (replaceFirst anchorLine PATCH_BLOCK sampleCMakeText)).1 (by decide)

/-- Claim C4: on a text containing neither marker and lacking the anchor
line, the patcher ends in the fatal marker-not-found termination and
performs no write. -/
theorem claim4_patch_missing_anchor (text : List Char)
    (h1 : containsSubstring markerA text = false)
    (h2 : containsSubstring markerB text = false)
    (h3 : containsSubstring anchorLine text = false) :
    patchMain text = PatchOutcome.markerNotFound ∧
    patchWrites (patchMain text) = none := by
  have hres : patchMain text = PatchOutcome.markerNotFound := by
    unfold patchMain
    rw [if_neg (by simp [h1, h2]), if_neg (by simp [h3])]
  exact ⟨hres, by rw [hres]; rfl⟩

/-- Witness for claim C4 at the concrete text `"hello"`. -/
theorem claim4_patch_missing_anchor_witness :
    patchMain (("hello").toList) = PatchOutcome.markerNotFound ∧
    patchWrites (patchMain (("hello").toList)) = none :=
  claim4_patch_missing_anchor (("hello").toList) (by decide) (by decide) (by decide)

/-- Counterexample to claim C6 as stated: `init "My Synth!" --synth
--company "Acme"` generates five text files from templates (build
descriptor, processor source/header, editor source/header), not six. -/
theorem claim6_init_six_files_counterexample :
    ¬ ((vibeInit (("My Synth!").toList) true (("Acme").toList)).text_files.length = 6) := by
  decide

/-- Claim C6 (amended: five generated text files, not six): the concrete
`init` run produces `project_name = "MySynth"`, `class_name = "MySynth"`,
manufacturer code `ACME`, plugin code `MYSY`, and writes the five
generated text files plus the two retention markers under `MySynth`. -/
theorem claim6_init_example :
    (vibeInit (("My Synth!").toList) true (("Acme").toList)).vars.project_name =
      ("MySynth").toList ∧
    (vibeInit (("My Synth!").toList) true (("Acme").toList)).vars.class_name =
      ("MySynth").toList ∧
    (vibeInit (("My Synth!").toList) true (("Acme").toList)).vars.manufacturer_code =
      pyQuote (("ACME").toList) ∧
    (vibeInit (("My Synth!").toList) true (("Acme").toList)).vars.plugin_code =
      pyQuote (("MYSY").toList) ∧
    (vibeInit (("My Synth!").toList) true (("Acme").toList)).text_files =
      [("MySynth/CMakeLists.txt").toList,
       ("MySynth/Source/PluginProcessor.cpp").toList,
       ("MySynth/Source/PluginProcessor.h").toList,
       ("MySynth/Source/PluginEditor.cpp").toList,
       ("MySynth/Source/PluginEditor.h").toList] ∧
    (vibeInit (("My Synth!").toList) true (("Acme").toList)).marker_files =
      [("MySynth/Source/DSP/.gitkeep").toList,
       ("MySynth/Source/GUI/.gitkeep").toList] := by
  decide

/-- Claim C7: `build` run in a directory with no `CMakeLists.txt` exits
with status 1 having performed no directory removal and no subprocess
invocation. -/
theorem claim7_build_requires_cmakelists (w : BuildWorld) (config : String)
    (clean : Bool) (juce_path : String) (h : w.cmakelists_exists = false) :
    buildCommand w config clean juce_path = { effects := [], exit_code := some 1 } := by
  unfold buildCommand
  rw [if_neg (by simp [h])]

/-- Witness for claim C7 in a concrete world without a `CMakeLists.txt`. -/
theorem claim7_build_requires_cmakelists_witness :
    buildCommand
      { cmakelists_exists := false, build_dir_exists := true,
        configure_returncode := 0, build_returncode := 0 }
      "Release" true "/opt/JUCE" = { effects := [], exit_code := some 1 } :=
  claim7_build_requires_cmakelists _ "Release" true "/opt/JUCE" rfl

/-- Claim C8: `vibe` with an absent or empty `ANTHROPIC_API_KEY` exits
immediately with status 1 and never invokes the external assistant. -/
theorem claim8_vibe_requires_key (promptParts : List String) (model : String)
    (juce_path : String) (api_key : Option String) (aider_found : Bool)
    (h : api_key = none ∨ api_key = some "") :
    vibeCommand promptParts model juce_path api_key aider_found =
      { aider_invocation := none, exit_code := some 1 } := by
  rcases h with h | h <;> subst h <;> rfl

/-- Witness for claim C8 with the key variable unset. -/
theorem claim8_vibe_requires_key_witness :
    vibeCommand ["Add", "a", "lowpass", "filter"] "claude-sonnet-4-20250514"
      "/opt/JUCE" none true =
      { aider_invocation := none, exit_code := some 1 } :=
  claim8_vibe_requires_key ["Add", "a", "lowpass", "filter"]
    "claude-sonnet-4-20250514" "/opt/JUCE" none true (Or.inl rfl)

/-- Claim C10: in the generated build descriptor the `IS_SYNTH` and
`NEEDS_MIDI_INPUT` settings are rendered as `TRUE` exactly when the synth
flag is set and as `FALSE` otherwise, and the rendered descriptor contains
them as consecutive lines carrying exactly those substituted values. -/
theorem claim10_midi_iff_synth (name company : List Char) (synth : Bool) :
    (template_vars name synth company).is_synth =
      (if synth then ("TRUE").toList else ("FALSE").toList) ∧
    (template_vars name synth company).needs_midi =
      (template_vars name synth company).is_synth ∧
    ((template_vars name synth company).is_synth = ("TRUE").toList ↔ synth = true) ∧
    ((template_vars name synth company).needs_midi = ("TRUE").toList ↔ synth = true) ∧
    (("    IS_SYNTH ").toList ++ (template_vars name synth company).is_synth ++
      ("\n").toList ++ ("    NEEDS_MIDI_INPUT ").toList ++
      (template_vars name synth company).needs_midi ++ ("\n").toList) <:+:
      cmakeRender (template_vars name synth company) := by
  refine ⟨rfl, rfl, ?_, ?_, ?_⟩
  · cases synth <;> simp [template_vars]
  · cases synth <;> simp [template_vars]
  · refine ⟨("cmake_minimum_required(VERSION 3.22)\n\nproject(").toList ++
      (template_vars name synth company).project_name ++
      (" VERSION 1.0.0)\n\nset(CMAKE_CXX_STANDARD 20)\nset(CMAKE_CXX_STANDARD_REQUIRED ON)\n\n# Find JUCE\nfind_package(JUCE CONFIG REQUIRED)\n\n# Add the plugin target\njuce_add_plugin(").toList ++
      (template_vars name synth company).project_name ++
      ("\n    COMPANY_NAME \"").toList ++
      (template_vars name synth company).company_name ++
      ("\"\n").toList,
      ("    NEEDS_MIDI_OUTPUT FALSE\n    IS_MIDI_EFFECT FALSE\n    EDITOR_WANTS_KEYBOARD_FOCUS TRUE\n    COPY_PLUGIN_AFTER_BUILD FALSE\n    PLUGIN_MANUFACTURER_CODE ").toList ++
      (template_vars name synth company).manufacturer_code ++
      ("\n    PLUGIN_CODE ").toList ++
      (template_vars name synth company).plugin_code ++
      ("\n    FORMATS VST3 Standalone\n    PRODUCT_NAME \"").toList ++
      (template_vars name synth company).display_name ++
      ("\"\n)\n\n# Generate JUCE header\njuce_generate_juce_header(").toList ++
      (template_vars name synth company).project_name ++
      (")\n\n# Source files\ntarget_sources(").toList ++
      (template_vars name synth company).project_name ++
      ("\n    PRIVATE\n        Source/PluginProcessor.cpp\n        Source/PluginEditor.cpp\n)\n\n# Add DSP sources if they exist\nfile(GLOB_RECURSE DSP_SOURCES \"Source/DSP/*.cpp\")\nif(DSP_SOURCES)\n    target_sources(").toList ++
      (template_vars name synth company).project_name ++
      (" PRIVATE ${DSP_SOURCES})\nendif()\n\n# Add GUI sources if they exist\nfile(GLOB_RECURSE GUI_SOURCES \"Source/GUI/*.cpp\")\nif(GUI_SOURCES)\n    target_sources(").toList ++
      (template_vars name synth company).project_name ++
      (" PRIVATE ${GUI_SOURCES})\nendif()\n\n# Include directories\ntarget_include_directories(").toList ++
      (template_vars name synth company).project_name ++
      ("\n    PRIVATE\n        Source\n        Source/DSP\n        Source/GUI\n)\n\n# JUCE compile definitions\ntarget_compile_definitions(").toList ++
      (template_vars name synth company).project_name ++
      ("\n    PUBLIC\n        JUCE_WEB_BROWSER=0\n        JUCE_USE_CURL=0\n        JUCE_VST3_CAN_REPLACE_VST2=0\n        JUCE_DISPLAY_SPLASH_SCREEN=0\n)\n\n# Link JUCE modules\ntarget_link_libraries(").toList ++
      (template_vars name synth company).project_name ++
      ("\n    PRIVATE\n        juce::juce_audio_utils\n        juce::juce_dsp\n        juce::juce_opengl\n    PUBLIC\n        juce::juce_recommended_config_flags\n        juce::juce_recommended_lto_flags\n        juce::juce_recommended_warning_flags\n)\n").toList,
      ?_⟩
    simp [cmakeRender, List.append_assoc]

end VibeVST
